import Mathlib

/-!
Verification development for the Meson build-orchestration adapter
(`conans/client/build/meson.py`).

The Python class `Meson` is shallowly embedded: its observable state is a
Lean structure, each method is a pure function returning the updated state,
a list of recorded side effects (directory creations, file writes, external
process invocations with the environment overlay stack they run under), and
an optional raised error.  External collaborators that live outside the
embedded module (path resolution, the process runner, `vcvars` dictionaries,
the autotools environment) are passed in as explicit parameters.
-/

namespace MesonSpec

/-- The single-quote character, written numerically. -/
def sqChar : Char := Char.ofNat 39

/-- The backslash character, written numerically. -/
def bsChar : Char := Char.ofNat 92

/-- A single-quote as a one-character string. -/
def sq : String := String.singleton sqChar

/-- Wrap a string in single quotes, as the cross-file format does. -/
def sqw (s : String) : String := sq ++ s ++ sq

/-- Python truthiness of an optional string: `None` and `""` are falsy. -/
def pyTruthy : Option String → Bool
  | none => false
  | some s => s ≠ ""

/-- Python `a or b` on optional strings: `b` when `a` is falsy. -/
def pyOr (a b : Option String) : Option String :=
  if pyTruthy a then a else b

/-- Python `str()` of an optional string: `None` prints as `"None"`. -/
def pyStr : Option String → String
  | none => "None"
  | some s => s

/-- Python `sep.join(list)`. -/
def pyJoin (sep : String) : List String → String
  | [] => ""
  | [x] => x
  | x :: xs => x ++ sep ++ pyJoin sep xs

/-- Ordered-dictionary lookup (first binding of the key). -/
def dictGet {α : Type} : List (String × α) → String → Option α
  | [], _ => none
  | (k2, v) :: rest, k => if k2 = k then some v else dictGet rest k

/-- Ordered-dictionary single-key update: replaces in place when the key is
present (Python dicts keep the original insertion position), appends
otherwise. -/
def dictSet {α : Type} : List (String × α) → String → α → List (String × α)
  | [], k, v => [(k, v)]
  | (k2, w) :: rest, k, v =>
      if k2 = k then (k, v) :: rest else (k2, w) :: dictSet rest k v

/-- Python `dict.update(other)`: fold the pairs in order. -/
def dictUpdate {α : Type} (d : List (String × α)) (kvs : List (String × α)) :
    List (String × α) :=
  kvs.foldl (fun acc p => dictSet acc p.1 p.2) d

/-- Python `s.split(' ')` on the character list: splitting on the single
space character, where the empty input yields one empty field and
consecutive separators yield empty fields. -/
def pySplitSpace : List Char → List (List Char)
  | [] => [[]]
  | c :: cs =>
      let r := pySplitSpace cs
      if c = ' ' then [] :: r
      else (c :: r.headD []) :: r.tail

/-- Join character-list tokens with a separator character: the inverse
direction of splitting. -/
def joinChar (sep : Char) : List (List Char) → List Char
  | [] => []
  | [t] => t
  | t :: ts => t ++ sep :: joinChar sep ts

/-- One character of Python `repr`, escaped for the chosen quote
character.  Modelled from the Python builtin for the printable strings that
occur in compiler-flag values: backslash, the quote character itself and the
common control characters are escaped, any other character passes through. -/
def pyEscChar (q : Char) (c : Char) : List Char :=
  if c = bsChar then [bsChar, bsChar]
  else if c = q then [bsChar, q]
  else if c = Char.ofNat 10 then [bsChar, Char.ofNat 110]
  else if c = Char.ofNat 13 then [bsChar, Char.ofNat 114]
  else if c = Char.ofNat 9 then [bsChar, Char.ofNat 116]
  else [c]

/-- Escape a character list for Python `repr`. -/
def pyEscape (q : Char) : List Char → List Char
  | [] => []
  | c :: cs => pyEscChar q c ++ pyEscape q cs

/-- Python `repr` of a string: single-quoted, unless the string contains a
single quote and no double quote, in which case double-quoted. -/
def pyRepr (s : String) : String :=
  let q : Char :=
    if s.data.any (· = sqChar) && !(s.data.any (· = '"')) then '"' else sqChar
  String.mk (q :: (pyEscape q s.data ++ [q]))

/-- `', '.join(repr(x) for x in value.split(' '))`: the rendering of a
`CFLAGS`/`CXXFLAGS` value into the cross-file list syntax. -/
def renderFlags (value : String) : String :=
  pyJoin ", " ((pySplitSpace value.data).map (fun cs => pyRepr (String.mk cs)))

/-- A token is plain when Python `repr` quotes it with single quotes and
escapes nothing, and splitting never cuts it: no space, no quotes, no
backslash, no escaped control character. -/
def plainToken (t : String) : Bool :=
  t.data.all (fun c =>
    c ≠ ' ' && c ≠ sqChar && c ≠ '"' && c ≠ bsChar &&
    c ≠ Char.ofNat 10 && c ≠ Char.ofNat 13 && c ≠ Char.ofNat 9)

/-- Errors raised by the embedded methods: `ConanException` with its
message, a Python `KeyError` from a failed dictionary lookup, and the
exception the process runner raises on non-zero exit. -/
inductive ConanError : Type
  | conanException (msg : String)
  | keyError (key : String)
  | executionError (command : String)
deriving DecidableEq, Repr

/-- An environment overlay: ordered bindings from variable name to
value-or-unset (`none` means the variable is removed for the scope of the
overlay, matching `environment_append` treating `None` values as
deletions). -/
def Overlay : Type := List (String × Option String)

instance : DecidableEq Overlay := by unfold Overlay; infer_instance

/-- Side effects the embedded methods perform, in order: directory
creation, file write (path and full content), and an external process
invocation recorded together with the stack of environment overlays in
scope for it, outermost first. -/
inductive Effect : Type
  | mkdirE (path : Option String)
  | writeFile (path : String) (content : String)
  | runCmd (command : String) (envLayers : List Overlay)
deriving DecidableEq

/-- Is an effect an external process invocation? -/
def Effect.isRun : Effect → Bool
  | .runCmd _ _ => true
  | _ => false

/-- The build-platform declaration carried by `conanfile.settings_build`
when cross-compiling with a two-profile setup: its `arch` setting and the
`os` returned by `get_build_os_arch`. -/
structure BuildMachine where
  os : String
  arch : String
deriving DecidableEq, Repr

/-- The conanfile collaborator, reduced to the members the Meson adapter
reads: safe settings lookup, safe options lookup (boolean options), the
folder attributes, the phase flags, and the optional `settings_build`
attribute. -/
structure ConanFile where
  settingsGet : String → Option String
  optionsGet : String → Option Bool
  package_folder : Option String
  build_folder : Option String
  source_folder : Option String
  install_folder : String
  in_local_cache : Bool
  should_configure : Bool
  should_build : Bool
  should_install : Bool
  should_test : Bool
  settings_build : Option BuildMachine

/-- The observable state of a `Meson` adapter instance. -/
structure Meson where
  append_vcvars : Bool
  exe_wrapper : String
  os : Option String
  compiler : Option String
  compiler_version : Option String
  build_type : Option String
  backend : String
  options : List (String × String)
  build_dir : Option String
deriving DecidableEq, Repr

/-- Modelled from the spec: convention-default install directory name for
libraries (`DEFAULT_LIB` of `conans.model.build_info`, outside `src/`). -/
def DEFAULT_LIB : String := "lib"

/-- Modelled from the spec: convention-default install directory name for
binaries (`DEFAULT_BIN`). -/
def DEFAULT_BIN : String := "bin"

/-- Modelled from the spec: convention-default install directory name for
headers (`DEFAULT_INCLUDE`). -/
def DEFAULT_INCLUDE : String := "include"

/-- The `cppstd` → meson dialect table of the constructor
(`cppstd_conan2meson`). -/
def cppstd_conan2meson : List (String × String) :=
  [("98", "c++03"), ("gnu98", "gnu++03"),
   ("11", "c++11"), ("gnu11", "gnu++11"),
   ("14", "c++14"), ("gnu14", "gnu++14"),
   ("17", "c++17"), ("gnu17", "gnu++17"),
   ("20", "c++1z"), ("gnu20", "gnu++1z")]

/-- Is `needle` a substring of `hay` (Python `needle in hay`)? -/
def strContains (hay needle : String) : Bool :=
  decide (needle.data <:+: hay.data)

/-- The `Meson.__init__` constructor.  `cppstd` is the value returned by
the external helper `cppstd_from_settings(conanfile.settings)`.  Warnings
(missing compiler, missing build type, overridden build type) go to an
output channel and are not part of the observable state, so they are not
modelled; the only failure is the `KeyError` from an unknown `cppstd`. -/
def Meson.init (cf : ConanFile) (cppstd : Option String)
    (backend : Option String := none) (build_type : Option String := none)
    (append_vcvars : Bool := false) (exe_wrapper : Option String := none) :
    Except ConanError Meson := do
  let exe := if pyTruthy exe_wrapper then exe_wrapper.getD "" else "false"
  let os := cf.settingsGet "os"
  let compiler := cf.settingsGet "compiler"
  let compiler_version := cf.settingsGet "compiler.version"
  let bt0 := cf.settingsGet "build_type"
  let bk := if pyTruthy backend then backend.getD "" else "ninja"
  let opts0 : List (String × String) :=
    if pyTruthy cf.package_folder then [("prefix", cf.package_folder.getD "")] else []
  let opts1 := dictSet opts0 "libdir" DEFAULT_LIB
  let opts1 := dictSet opts1 "bindir" DEFAULT_BIN
  let opts1 := dictSet opts1 "sbindir" DEFAULT_BIN
  let opts1 := dictSet opts1 "libexecdir" DEFAULT_BIN
  let opts1 := dictSet opts1 "includedir" DEFAULT_INCLUDE
  let opts2 ←
    if pyTruthy cppstd then
      match dictGet cppstd_conan2meson (cppstd.getD "") with
      | some tok => pure (dictSet opts1 "cpp_std" tok)
      | none => throw (.keyError (cppstd.getD ""))
    else pure opts1
  let shared := cf.optionsGet "shared"
  let opts3 := dictSet opts2 "default_library"
    (if shared = none || shared = some true then "shared" else "static")
  let opts4 :=
    if pyTruthy os && !(strContains (os.getD "") "Windows") then
      match cf.optionsGet "fPIC" with
      | some fpic =>
          let shared2 := cf.optionsGet "shared"
          dictSet opts3 "b_staticpic"
            (if fpic || shared2 = some true then "true" else "false")
      | none => opts3
    else opts3
  let bt :=
    if pyTruthy build_type && build_type ≠ bt0 then build_type else bt0
  pure { append_vcvars := append_vcvars, exe_wrapper := exe, os := os,
         compiler := compiler, compiler_version := compiler_version,
         build_type := bt, backend := bk, options := opts4, build_dir := none }

/-- The generic 32-bit ARM triple shared by the whole ARM 32-bit family. -/
def armTriple : String × String × String := ("arm", "arm", "little")

/-- The `cpu_translate` table of `_configure_cross_compile`, mapping the
architecture setting to `(cpu_family, cpu, endian)`.  The source dict
literal lists the key `x86` twice with the same value; both entries are
kept here (lookup returns the shared value either way). -/
def cpu_translate : List (String × (String × String × String)) :=
  [("x86", ("x86", "x86", "little")),
   ("x86_64", ("x86_64", "x86_64", "little")),
   ("x86", ("x86", "x86", "little")),
   ("ppc32be", ("ppc", "ppc", "big")),
   ("ppc32", ("ppc", "ppc", "little")),
   ("ppc64le", ("ppc64", "ppc64", "little")),
   ("ppc64", ("ppc64", "ppc64", "big")),
   ("armv4", armTriple),
   ("armv4i", armTriple),
   ("armv5el", armTriple),
   ("armv5hf", armTriple),
   ("armv6", armTriple),
   ("armv7", armTriple),
   ("armv7hf", armTriple),
   ("armv7s", armTriple),
   ("armv7k", armTriple),
   ("armv8_32", armTriple),
   ("armv8", ("aarch64", "aarch64", "little")),
   ("armv8.3", ("aarch64", "aarch64", "little")),
   ("sparc", ("sparc", "sparc", "big")),
   ("sparcv9", ("sparc64", "sparc64", "big")),
   ("mips", ("mips", "mips", "big")),
   ("mips64", ("mips64", "mips64", "big")),
   ("avr", ("avr", "avr", "little")),
   ("s390", ("s390", "s390", "big")),
   ("s390x", ("s390", "s390", "big")),
   ("wasm", ("wasm", "wasm", "little"))]

/-- The ARM 32-bit family identifiers of the table. -/
def arm32Ids : List String :=
  ["armv4", "armv4i", "armv5el", "armv5hf", "armv6", "armv7", "armv7hf",
   "armv7s", "armv7k", "armv8_32"]

/-- Sixteen spaces: the indentation of the `[host_machine]` literal in the
source. -/
def ind16 : String := "                "

/-- Twenty spaces: the indentation of the `[build_machine]` literal. -/
def ind20 : String := "                    "

/-- The newline string. -/
def nl : String := "\n"

/-- The parameters substituted into the host part of the cross file. -/
structure CrossParams where
  os_host : String
  cpu_family : String
  cpu : String
  endian : String
  exe_wrapper : String
  cxxflags : String
  cflags : String
  libdir : String
  cc : String
  cpp : String
  ar : String
  ld : String
  strip : String
  ranlib : String
deriving DecidableEq, Repr

/-- The lines of the `[build_machine]` block written when the conanfile has
a `settings_build` attribute (leading empty line from the newline that
opens the Python triple-quoted literal; trailing sixteen-space line from
the indentation before the closing quotes). -/
def crossBuildLines (os_build cpu_family cpu endian : String) : List String :=
  ["",
   ind20 ++ "[build_machine]",
   ind20 ++ "system = " ++ sqw os_build,
   ind20 ++ "cpu_family = " ++ sqw cpu_family,
   ind20 ++ "cpu = " ++ sqw cpu,
   ind20 ++ "endian = " ++ sqw endian,
   ind16]

/-- The lines of the `[host_machine]`/`[properties]`/`[binaries]` part of
the cross file, exactly as the triple-quoted literal of
`_configure_cross_compile` lays them out. -/
def crossHostLines (p : CrossParams) : List String :=
  ["",
   ind16 ++ "[host_machine]",
   ind16 ++ "system = " ++ sqw p.os_host,
   ind16 ++ "cpu_family = " ++ sqw p.cpu_family,
   ind16 ++ "cpu = " ++ sqw p.cpu,
   ind16 ++ "endian = " ++ sqw p.endian,
   "",
   ind16 ++ "[properties]",
   ind16 ++ "needs_exe_wrapper = " ++ sqw p.exe_wrapper,
   ind16 ++ "cpp_args = [" ++ p.cxxflags ++ "]",
   ind16 ++ "c_args = [" ++ p.cflags ++ "]",
   ind16 ++ "pkg_config_libdir=" ++ sqw p.libdir,
   "",
   ind16 ++ "[binaries]",
   ind16 ++ "c = " ++ sqw p.cc,
   ind16 ++ "cpp = " ++ sqw p.cpp,
   ind16 ++ "ar = " ++ sqw p.ar,
   ind16 ++ "ld = " ++ sqw p.ld,
   ind16 ++ "strip = " ++ sqw p.strip,
   ind16 ++ "ranlib = " ++ sqw p.ranlib,
   ind16 ++ "pkgconfig = " ++ sqw "pkg-config",
   ind16]

/-- The substituted host-side parameters of the cross file: the host
machine descriptor, the adapter's exe-wrapper written verbatim, the
rendered `CFLAGS`/`CXXFLAGS`, the pkg-config search path, and the
toolchain binaries captured from the ambient environment with their
conventional defaults. -/
def crossParamsOf (m : Meson) (os_host : String)
    (trip : String × String × String) (sysEnv : String → Option String)
    (libdir : String) : CrossParams :=
  { os_host := os_host, cpu_family := trip.1, cpu := trip.2.1,
    endian := trip.2.2, exe_wrapper := m.exe_wrapper,
    cxxflags := renderFlags ((sysEnv "CXXFLAGS").getD ""),
    cflags := renderFlags ((sysEnv "CFLAGS").getD ""),
    libdir := libdir,
    cc := (sysEnv "CC").getD "cc",
    cpp := (sysEnv "CXX").getD "c++",
    ar := (sysEnv "AR").getD "ar",
    ld := (sysEnv "LD").getD "ld",
    strip := (sysEnv "STRIP").getD "strip",
    ranlib := (sysEnv "RANLIB").getD "ranlib" }

/-- The host part of the cross-file text: its lines joined by newlines. -/
def crossHostContent (p : CrossParams) : String :=
  pyJoin nl (crossHostLines p)

/-- The `environ_append.update({...})` of `_configure_cross_compile`: the
six keys of the source dict literal, in order, each mapped to unset. -/
def clearedOverlay (environ_append : Overlay) : Overlay :=
  let ov := dictSet environ_append "CC" none
  let ov := dictSet ov "CXX" none
  let ov := dictSet ov "CFLAGS" none
  let ov := dictSet ov "CXXFLAGS" none
  let ov := dictSet ov "CPPFLAGS" none
  dictSet ov "LDFLAGS" none

/-- `Meson._configure_cross_compile`, as a pure function of the ambient
environment (`os.environ`).  Returns the updated overlay and the recorded
file write; the possible failures are the `KeyError`s of the source: an
architecture absent from `cpu_translate` (build machine first, then host)
and a missing `PKG_CONFIG_PATH` entry in the overlay. -/
def Meson.configureCrossCompile (m : Meson) (cf : ConanFile)
    (sysEnv : String → Option String) (cross_filename : String)
    (environ_append : Overlay) : Except ConanError (Overlay × List Effect) := do
  let buildPart ←
    match cf.settings_build with
    | some sb =>
        match dictGet cpu_translate sb.arch with
        | none => throw (.keyError sb.arch)
        | some (bFam, bCpu, bEnd) =>
            pure (pyJoin nl (crossBuildLines sb.os.toLower bFam bCpu bEnd))
    | none => pure ""
  let os_host := (pyStr (cf.settingsGet "os")).toLower
  let trip ←
    match dictGet cpu_translate (pyStr (cf.settingsGet "arch")) with
    | none => throw (.keyError (pyStr (cf.settingsGet "arch")))
    | some t => pure t
  let libdir ←
    match dictGet environ_append "PKG_CONFIG_PATH" with
    | none => throw (.keyError "PKG_CONFIG_PATH")
    | some v => pure (pyStr v)
  let content := buildPart ++ crossHostContent (crossParamsOf m os_host trip sysEnv libdir)
  pure (clearedOverlay environ_append, [.writeFile cross_filename content])

/-- Modelled from the spec: `PathResolver.absolute_path` for a non-empty
folder (`get_abs_path` of `conans.util.files`, outside `src/`) is abstract
here — an arbitrary resolver function is threaded through; a falsy folder
resolves to the origin. -/
def get_abs_path (absp : String → Option String → String)
    (folder origin : Option String) : Option String :=
  if pyTruthy folder then some (absp (folder.getD "") origin) else origin

/-- String form of `get_abs_path` against a known string origin, used for
the entries of `pkg_config_paths`. -/
def getAbsPathS (absp : String → Option String → String)
    (folder : String) (origin : String) : String :=
  if folder ≠ "" then absp folder (some origin) else origin

/-- `os.pathsep` on the POSIX platforms this embedding targets. -/
def os_pathsep : String := ":"

/-- Modelled from the spec: `os.path.join(build_dir, name)` for the cross
file path; the build directory is resolved before this point. -/
def joinPath (dir : Option String) (name : String) : String :=
  dir.getD "" ++ "/" ++ name

/-- The error message of `_get_dirs` when both parameter styles are
given. -/
def dirsMsg : String := "Use " ++ sqw "build_folder" ++ "/" ++ sqw "source_folder"

/-- `Meson._get_dirs`: mutually exclusive legacy (`source_dir`/`build_dir`)
and new (`source_folder`/`build_folder`) parameter styles; the legacy style
falls back through the stored build dir and the conanfile folders, the new
style resolves against the conanfile folders; a cache build folder wins in
the local cache. -/
def Meson.getDirs (m : Meson) (cf : ConanFile)
    (absp : String → Option String → String)
    (source_folder build_folder source_dir build_dir cache_build_folder :
      Option String) : Except ConanError (Option String × Option String) :=
  if (pyTruthy source_folder || pyTruthy build_folder) &&
      (pyTruthy source_dir || pyTruthy build_dir) then
    .error (.conanException dirsMsg)
  else
    let p :=
      if pyTruthy source_dir || pyTruthy build_dir then
        (pyOr source_dir cf.source_folder,
         pyOr build_dir (pyOr m.build_dir cf.build_folder))
      else
        (get_abs_path absp source_folder cf.source_folder,
         get_abs_path absp build_folder cf.build_folder)
    let bld :=
      if cf.in_local_cache && pyTruthy cache_build_folder then
        get_abs_path absp cache_build_folder cf.build_folder
      else p.2
    .ok (p.1, bld)

/-- The build-type table of `configure`:
`{...}.get(str(self.build_type), "")`. -/
def btMapped (bt : Option String) : String :=
  (dictGet [("RelWithDebInfo", "debugoptimized"),
            ("MinSizeRel", "release"),
            ("Debug", "debug"),
            ("Release", "release")] (pyStr bt)).getD ""

/-- The `pc_paths` computation of `configure`: a falsy `pkg_config_paths`
argument yields the conanfile's install folder; otherwise each given path
is resolved against the install folder and the results are joined with the
OS path separator. -/
def pcPathsOf (absp : String → Option String → String)
    (install_folder : String) : Option (List String) → String
  | some ps =>
      if ps ≠ [] then
        pyJoin os_pathsep (ps.map (fun f => getAbsPathS absp f install_folder))
      else install_folder
  | none => install_folder

/-- Modelled from the spec: `join_arguments` (outside `src/`) joins the
non-empty pieces of the command line with single spaces, skipping `None`
and empty entries. -/
def joinArguments (pieces : List (Option String)) : String :=
  pyJoin " " ((pieces.filterMap id).filter (fun s => s ≠ ""))

/-- Modelled from the spec: `args_to_string` (outside `src/`) renders the
extra-argument and target lists as a space-joined token list; a missing
list renders as the empty string. -/
def argsToString : Option (List String) → String
  | none => ""
  | some l => pyJoin " " l

/-- Modelled from the spec: the OptionPlanner rendering (`defs_to_string`,
outside `src/`) emits one `--key=value` token per plan entry, in insertion
order, joined by spaces. -/
def defs_to_string (defs : List (String × String)) : String :=
  pyJoin " " (defs.map (fun p => "--" ++ p.1 ++ "=" ++ p.2))

/-- The `flags` property. -/
def Meson.flags (m : Meson) : String := defs_to_string m.options

/-- The external context of command execution: the platform the process
runs on, the externally supplied `vcvars` dictionary, the autotools build
environment variables, and the process runner (`true` = exit status 0). -/
structure RunCtx where
  platformSystem : String
  vcvarsDict : Overlay
  buildEnvVars : Overlay
  runner : String → Bool

/-- `Meson._vcvars_needed`. -/
def Meson.vcvarsNeeded (m : Meson) (platformSystem : String) : Bool :=
  m.compiler = some "Visual Studio" && m.backend = "ninja" &&
    platformSystem = "Windows"

/-- The overlay stack `_run` places around an external command, outermost
first: the caller's overlays, the `vcvars` dictionary when
`_vcvars_needed`, then the autotools build environment. -/
def runLayers (m : Meson) (ctx : RunCtx) (outer : List Overlay) :
    List Overlay :=
  outer ++
    (if m.vcvarsNeeded ctx.platformSystem then [ctx.vcvarsDict] else []) ++
    [ctx.buildEnvVars]

/-- The trace view of `Meson._run`: the command is recorded together with
the overlay stack in scope, and the runner decides between success and the
exception for a failed execution. -/
def Meson.runWithEnv (m : Meson) (ctx : RunCtx) (outer : List Overlay)
    (command : String) : Option ConanError × List Effect :=
  ((if ctx.runner command then none else some (.executionError command)),
   [.runCmd command (runLayers m ctx outer)])

/-- The result of a lifecycle method: the adapter state after the call
(mutations made before a raise are kept, as in Python), the effects
performed, and the raised error, if any. -/
structure MOutcome where
  state : Meson
  effects : List Effect
  error : Option ConanError
deriving DecidableEq

/-- The collaborators `configure` consults besides the runner: the ambient
process environment, the abstract path resolver, and the result of
`tools.cross_building(settings)`. -/
structure ConfDeps where
  sysEnv : String → Option String
  absp : String → Option String → String
  crossBuilding : Bool

/-- The adapter state after a `configure` call that got past directory
resolution: the overrides merged into the option plan and the resolved
build directory stored. -/
def configuredState (m : Meson) (defs : List (String × String))
    (bld_d : Option String) : Meson :=
  { m with options := dictUpdate m.options defs, build_dir := bld_d }

/-- The command line `configure` composes:
`meson "<source_dir>" "<build_dir>" <cross?> --backend=<b> <options> <args>
--buildtype=<bt>`, with the empty pieces dropped by `join_arguments`. -/
def configureCommandOf (m : Meson) (src_d bld_d : Option String)
    (cross_option : Option String) (args : List String) : String :=
  "meson " ++ "\"" ++ pyStr src_d ++ "\" \"" ++ pyStr bld_d ++ "\" " ++
    joinArguments
      [cross_option,
       some ("--backend=" ++ m.backend),
       some m.flags,
       some (argsToString (some args)),
       some ("--buildtype=" ++ btMapped m.build_type)]

/-- `Meson.configure`.  Follows the source order: phase-flag gate, merge of
`defs` into the option plan, directory resolution (storing the build dir),
pkg-config path computation, build-dir creation, build-type mapping,
optional cross-file synthesis, command composition and execution under the
`environ_append` overlay. -/
def Meson.configure (m : Meson) (cf : ConanFile) (ctx : RunCtx)
    (deps : ConfDeps)
    (args : List String := []) (defs : List (String × String) := [])
    (source_dir : Option String := none) (build_dir : Option String := none)
    (pkg_config_paths : Option (List String) := none)
    (cache_build_folder : Option String := none)
    (build_folder : Option String := none)
    (source_folder : Option String := none)
    (no_generated_cross_file : Bool := false) : MOutcome :=
  if !cf.should_configure then ⟨m, [], none⟩
  else
    let opts := dictUpdate m.options defs
    match m.getDirs cf deps.absp source_folder build_folder source_dir
        build_dir cache_build_folder with
    | .error e => ⟨{ m with options := opts }, [], some e⟩
    | .ok (src_d, bld_d) =>
      let m1 := configuredState m defs bld_d
      let pc_paths := pcPathsOf deps.absp cf.install_folder pkg_config_paths
      let environ0 : Overlay := [("PKG_CONFIG_PATH", some pc_paths)]
      let crossRes : Except ConanError (Option String × Overlay × List Effect) :=
        if deps.crossBuilding && !no_generated_cross_file then
          let cross_filename := joinPath bld_d "cross_file.txt"
          match m1.configureCrossCompile cf deps.sysEnv cross_filename environ0 with
          | .error e => .error e
          | .ok (ov, effs) =>
              .ok (some ("--cross-file=" ++ cross_filename), ov, effs)
        else .ok (none, environ0, [])
      match crossRes with
      | .error e => ⟨m1, [.mkdirE bld_d], some e⟩
      | .ok (cross_option, environ2, crossEffs) =>
        let command := configureCommandOf m1 src_d bld_d cross_option args
        let (err, runEffs) := m1.runWithEnv ctx [environ2] command
        ⟨m1, [.mkdirE bld_d] ++ crossEffs ++ runEffs, err⟩

/-- The error message of `_run_ninja_targets` for a non-ninja backend. -/
def backendMsg : String :=
  "Build only supported with " ++ sqw "ninja" ++ " backend"

/-- `Meson._run_ninja_targets`: refuses any backend other than ninja
before composing or running anything, then invokes ninja against the
resolved build directory. -/
def Meson.runNinjaTargets (m : Meson) (cf : ConanFile) (ctx : RunCtx)
    (args : List String) (build_dir : Option String)
    (targets : Option (List String)) : MOutcome :=
  if m.backend ≠ "ninja" then ⟨m, [], some (.conanException backendMsg)⟩
  else
    let bd := pyOr build_dir (pyOr m.build_dir cf.build_folder)
    let arg_list := joinArguments
      [some ("-C " ++ "\"" ++ pyStr bd ++ "\""),
       some (argsToString (some args)),
       some (argsToString targets)]
    let (err, effs) := m.runWithEnv ctx [] ("ninja " ++ arg_list)
    ⟨m, effs, err⟩

/-- `Meson._run_meson_command`: invokes the meta-build tool's own
subcommand against the resolved build directory, with no backend
restriction. -/
def Meson.runMesonCommand (m : Meson) (cf : ConanFile) (ctx : RunCtx)
    (subcommand : Option String) (args : List String)
    (build_dir : Option String) : MOutcome :=
  let bd := pyOr build_dir (pyOr m.build_dir cf.build_folder)
  let arg_list := joinArguments
    [subcommand,
     some ("-C " ++ "\"" ++ pyStr bd ++ "\""),
     some (argsToString (some args))]
  let (err, effs) := m.runWithEnv ctx [] ("meson " ++ arg_list)
  ⟨m, effs, err⟩

/-- `Meson.build`.  The missing-build-type case only warns through the
output channel (`conan_v2_behavior` with a v1 fallback, outside `src/`,
modelled from the spec as a soft, non-fatal report), so it is not part of
the observable outcome. -/
def Meson.build (m : Meson) (cf : ConanFile) (ctx : RunCtx)
    (args : List String := []) (build_dir : Option String := none)
    (targets : Option (List String) := none) : MOutcome :=
  if !cf.should_build then ⟨m, [], none⟩
  else m.runNinjaTargets cf ctx args build_dir targets

/-- The error message of `install` when no prefix is configured. -/
def installMsg : String :=
  sqw "prefix" ++ " not defined for " ++ sqw "meson.install()" ++ nl ++
    "Make sure " ++ sqw "package_folder" ++ " is defined"

/-- `Meson.install`.  `mkdir(package_folder)` is modelled from the spec as
the idempotent `make_directory` effect (the helper lives outside `src/`);
the prefix check follows it, as in the source. -/
def Meson.install (m : Meson) (cf : ConanFile) (ctx : RunCtx)
    (args : List String := []) (build_dir : Option String := none) : MOutcome :=
  if !cf.should_install then ⟨m, [], none⟩
  else if !pyTruthy (dictGet m.options "prefix") then
    ⟨m, [.mkdirE cf.package_folder], some (.conanException installMsg)⟩
  else
    let r := m.runNinjaTargets cf ctx args build_dir (some ["install"])
    ⟨r.state, [.mkdirE cf.package_folder] ++ r.effects, r.error⟩

/-- `Meson.test`: target list defaults to `["test"]` when falsy. -/
def Meson.test (m : Meson) (cf : ConanFile) (ctx : RunCtx)
    (args : List String := []) (build_dir : Option String := none)
    (targets : Option (List String) := none) : MOutcome :=
  if !cf.should_test then ⟨m, [], none⟩
  else
    let tg := match targets with
      | some l => if l ≠ [] then some l else some ["test"]
      | none => some ["test"]
    m.runNinjaTargets cf ctx args build_dir tg

/-- `Meson.meson_install`. -/
def Meson.mesonInstall (m : Meson) (cf : ConanFile) (ctx : RunCtx)
    (args : List String := []) (build_dir : Option String := none) : MOutcome :=
  if !cf.should_install then ⟨m, [], none⟩
  else m.runMesonCommand cf ctx (some "install") args build_dir

/-- `Meson.meson_test`. -/
def Meson.mesonTest (m : Meson) (cf : ConanFile) (ctx : RunCtx)
    (args : List String := []) (build_dir : Option String := none) : MOutcome :=
  if !cf.should_test then ⟨m, [], none⟩
  else m.runMesonCommand cf ctx (some "test") args build_dir

/-- An ambient process environment. -/
def EnvMap : Type := String → Option String

/-- Modelled from the spec: applying an `EnvironmentOverlay` to an ambient
environment — a binding to a value sets the variable, a binding to unset
removes it, unmentioned variables pass through. -/
def applyOverlay (e : EnvMap) (ov : Overlay) : EnvMap :=
  fun k => match dictGet ov k with
    | some v => v
    | none => e k

/-- Modelled from the spec: the scoped environment combinators
(`environment_append` / `_environment_add`, outside `src/`) apply an
overlay for the governed action only and restore the prior ambient
environment when the action finishes, on both success and failure paths
(whatever environment the action leaves behind is discarded). -/
def withEnvOverlay {α : Type} (ov : Overlay) (act : EnvMap → α × EnvMap)
    (e : EnvMap) : α × EnvMap :=
  ((act (applyOverlay e ov)).1, e)

/-- The environment-scoping view of `Meson._run`: the governed action
(the external command, arbitrary in its result and in the environment it
leaves) runs inside the autotools-environment overlay, itself wrapped in
the `vcvars` overlay exactly when `_vcvars_needed`. -/
def Meson.runScoped {α : Type} (m : Meson) (ctx : RunCtx)
    (act : EnvMap → α × EnvMap) (e : EnvMap) : α × EnvMap :=
  let body := withEnvOverlay ctx.buildEnvVars act
  if m.vcvarsNeeded ctx.platformSystem then
    withEnvOverlay ctx.vcvarsDict body e
  else body e

/-- The outermost overlay of the first recorded process invocation of an
outcome: for `configure` this is the `environ_append` dictionary. -/
def firstRunOuterOverlay (o : MOutcome) : Option Overlay :=
  (o.effects.filterMap (fun e => match e with
    | .runCmd _ (ov :: _) => some ov
    | _ => none)).head?

/-- The `PKG_CONFIG_PATH` binding of the outermost overlay of the first
recorded process invocation. -/
def pcEntry (o : MOutcome) : Option (Option (Option String)) :=
  (firstRunOuterOverlay o).map (fun ov => dictGet ov "PKG_CONFIG_PATH")

/-- A concrete conanfile used by the witnesses and counterexamples:
Linux/x86_64/gcc/Release, all folders set, all phase flags on, no
two-profile build declaration. -/
def cfX : ConanFile :=
  { settingsGet := fun k =>
      if k = "os" then some "Linux"
      else if k = "arch" then some "x86_64"
      else if k = "build_type" then some "Release"
      else if k = "compiler" then some "gcc" else none,
    optionsGet := fun _ => none,
    package_folder := some "/pkg", build_folder := some "/bld",
    source_folder := some "/src", install_folder := "/inst",
    in_local_cache := false, should_configure := true, should_build := true,
    should_install := true, should_test := true, settings_build := none }

/-- The adapter state `Meson.__init__` builds from `cfX` with every
argument defaulted. -/
def mX : Meson :=
  { append_vcvars := false, exe_wrapper := "false", os := some "Linux",
    compiler := some "gcc", compiler_version := none,
    build_type := some "Release", backend := "ninja",
    options := [("prefix", "/pkg"), ("libdir", "lib"), ("bindir", "bin"),
                ("sbindir", "bin"), ("libexecdir", "bin"),
                ("includedir", "include"), ("default_library", "shared")],
    build_dir := none }

/-- A run context for a Linux host whose runner always succeeds. -/
def ctxOk : RunCtx :=
  { platformSystem := "Linux", vcvarsDict := [],
    buildEnvVars := [("LIBS", some "-lm")], runner := fun _ => true }

/-- A run context whose runner always reports a non-zero exit. -/
def ctxFail : RunCtx :=
  { platformSystem := "Linux", vcvarsDict := [],
    buildEnvVars := [("LIBS", some "-lm")], runner := fun _ => false }

/-- Collaborators for a cross-compiling configure: empty ambient
environment, a resolver that keeps paths as given. -/
def depsCross : ConfDeps :=
  { sysEnv := fun _ => none, absp := fun f _ => f, crossBuilding := true }

/-- Collaborators for a native configure. -/
def depsNative : ConfDeps :=
  { sysEnv := fun _ => none, absp := fun f _ => f, crossBuilding := false }

/-- The overlay `configure` hands to the invocation in the concrete
cross-compiling scenario of the C1 counterexample. -/
def c1overlay : Overlay :=
  [("PKG_CONFIG_PATH", some "/inst"), ("CC", none), ("CXX", none),
   ("CFLAGS", none), ("CXXFLAGS", none), ("CPPFLAGS", none),
   ("LDFLAGS", none)]

/-- The adapter state without a seeded prefix (no package folder known at
construction). -/
def mNoPrefix : Meson :=
  { mX with options := [("libdir", "lib"), ("bindir", "bin")] }

/-- A conanfile with no package output directory. -/
def cfNoPkg : ConanFile := { cfX with package_folder := none }

/-- An adapter configured for a Visual Studio project backend. -/
def mVs : Meson := { mX with backend := "vs2017" }

/-- An empty ambient process environment. -/
def envEmpty : String → Option String := fun _ => none

/-- The concrete cross-compiling configure of the C1 counterexample. -/
def c1out : MOutcome :=
  mX.configure cfX ctxOk depsCross [] [] none none none none none none false

/-- The concrete failing configure of the C3 counterexample: a fresh
adapter, a legacy-style `build_dir` argument, an extra option override,
and a runner that reports a non-zero exit. -/
def c3out : MOutcome :=
  mX.configure cfX ctxFail depsNative [] [("custom_opt", "1")] none
    (some "bd") none none none none false

lemma dictGet_dictSet_same {α : Type} (d : List (String × α)) (k : String)
    (v : α) : dictGet (dictSet d k v) k = some v := by
  induction d with
  | nil => simp [dictGet, dictSet]
  | cons p rest ih =>
      by_cases h : p.1 = k
      · simp [dictGet, dictSet, h]
      · simp [dictGet, dictSet, h, ih]

lemma dictGet_dictSet_other {α : Type} (d : List (String × α))
    (k k2 : String) (v : α) (h : k ≠ k2) :
    dictGet (dictSet d k v) k2 = dictGet d k2 := by
  induction d with
  | nil => simp [dictGet, dictSet, h]
  | cons p rest ih =>
      by_cases hp : p.1 = k
      · simp [dictGet, dictSet, hp, h]
      · simp only [dictSet, hp, if_false]
        by_cases hq : p.1 = k2
        · simp [dictGet, hq]
        · simp [dictGet, hq, ih]

lemma pyJoin_cons_ne (sep f : String) (l : List String) (h : l ≠ []) :
    pyJoin sep (f :: l) = f ++ sep ++ pyJoin sep l := by
  cases l with
  | nil => exact absurd rfl h
  | cons a as => rfl

/-- A joined list ends with its last element. -/
lemma pyJoin_ends (sep : String) (fs : List String) (x : String) :
    ∃ p, pyJoin sep (fs ++ [x]) = p ++ x := by
  induction fs with
  | nil => exact ⟨"", by simp [pyJoin]⟩
  | cons f fs ih =>
      obtain ⟨p, hp⟩ := ih
      refine ⟨f ++ sep ++ p, ?_⟩
      rw [List.cons_append, pyJoin_cons_ne sep f (fs ++ [x]) (by simp), hp]
      simp [String.append_assoc]

/-- A joined list contains any of its elements, with the join to its left
and to its right on each side. -/
lemma pyJoin_mem_split (sep : String) (xs ys : List String) (x : String) :
    ∃ a b, pyJoin sep (xs ++ x :: ys) = a ++ (x ++ b) := by
  induction xs with
  | nil =>
      cases ys with
      | nil => exact ⟨"", "", by simp [pyJoin]⟩
      | cons y ys =>
          refine ⟨"", sep ++ pyJoin sep (y :: ys), ?_⟩
          rw [List.nil_append, pyJoin_cons_ne sep x (y :: ys) (by simp)]
          simp [String.append_assoc]
  | cons f fs ih =>
      obtain ⟨a, b, hab⟩ := ih
      refine ⟨f ++ sep ++ a, b, ?_⟩
      rw [List.cons_append, pyJoin_cons_ne sep f (fs ++ x :: ys) (by simp), hab]
      simp [String.append_assoc]

lemma joinArguments_ends (pieces : List (Option String)) (x : String)
    (hx : x ≠ "") :
    ∃ p, joinArguments (pieces ++ [some x]) = p ++ x := by
  unfold joinArguments
  rw [List.filterMap_append, List.filter_append]
  simp only [List.filterMap_cons, List.filterMap_nil, id_eq]
  rw [List.filter_cons_of_pos (by simpa using hx)]
  simp only [List.filter_nil]
  exact pyJoin_ends " " _ x

lemma pySplitSpace_ne_nil (cs : List Char) : pySplitSpace cs ≠ [] := by
  cases cs with
  | nil => simp [pySplitSpace]
  | cons c cs =>
      by_cases h : c = ' ' <;> simp [pySplitSpace, h]

/-- Splitting a space-free token yields that single token. -/
lemma pySplitSpace_space_free (t : List Char) (h : ∀ c ∈ t, c ≠ ' ') :
    pySplitSpace t = [t] := by
  induction t with
  | nil => rfl
  | cons c cs ih =>
      have hc : c ≠ ' ' := h c (List.mem_cons_self c cs)
      have ihs := ih (fun x hx => h x (List.mem_cons_of_mem c hx))
      simp [pySplitSpace, hc, ihs]

/-- Splitting peels a space-free token off the front, at the first
space. -/
lemma pySplitSpace_append (t cs : List Char) (h : ∀ c ∈ t, c ≠ ' ') :
    pySplitSpace (t ++ ' ' :: cs) = t :: pySplitSpace cs := by
  induction t with
  | nil => simp [pySplitSpace]
  | cons c t ih =>
      have hc : c ≠ ' ' := h c (List.mem_cons_self c t)
      have ihs := ih (fun x hx => h x (List.mem_cons_of_mem c hx))
      simp [pySplitSpace, hc, ihs]

/-- Splitting inverts joining on space-free tokens. -/
lemma pySplitSpace_joinChar (ts : List (List Char)) (hne : ts ≠ [])
    (h : ∀ t ∈ ts, ∀ c ∈ t, c ≠ ' ') :
    pySplitSpace (joinChar ' ' ts) = ts := by
  induction ts with
  | nil => exact absurd rfl hne
  | cons t ts ih =>
      cases ts with
      | nil =>
          exact pySplitSpace_space_free t (h t (List.mem_cons_self t []))
      | cons t2 ts2 =>
          have ht : ∀ c ∈ t, c ≠ ' ' := h t (List.mem_cons_self t _)
          have hrest : ∀ u ∈ t2 :: ts2, ∀ c ∈ u, c ≠ ' ' :=
            fun u hu => h u (List.mem_cons_of_mem t hu)
          have : joinChar ' ' (t :: t2 :: ts2) = t ++ ' ' :: joinChar ' ' (t2 :: ts2) := rfl
          rw [this, pySplitSpace_append t _ ht, ih (by simp) hrest]

/-- Escaping is the identity on plain characters. -/
lemma pyEscape_plain (cs : List Char)
    (h : ∀ c ∈ cs, c ≠ sqChar ∧ c ≠ bsChar ∧ c ≠ Char.ofNat 10 ∧
      c ≠ Char.ofNat 13 ∧ c ≠ Char.ofNat 9) :
    pyEscape sqChar cs = cs := by
  induction cs with
  | nil => rfl
  | cons c cs ih =>
      obtain ⟨h1, h2, h3, h4, h5⟩ := h c (List.mem_cons_self c cs)
      have ihs := ih (fun x hx => h x (List.mem_cons_of_mem c hx))
      have hq : c ≠ sqChar := h1
      simp [pyEscape, pyEscChar, h1, h2, h3, h4, h5, ihs]

/-- Python `repr` of a plain token is the token wrapped in single
quotes. -/
lemma pyRepr_plain (t : String) (h : plainToken t = true) :
    pyRepr t = sqw t := by
  have hall : ∀ c ∈ t.data,
      c ≠ ' ' ∧ c ≠ sqChar ∧ c ≠ '"' ∧ c ≠ bsChar ∧ c ≠ Char.ofNat 10 ∧
        c ≠ Char.ofNat 13 ∧ c ≠ Char.ofNat 9 := by
    intro c hc
    have := List.all_eq_true.mp h c hc
    simpa [and_assoc] using this
  have hq : t.data.any (· = sqChar) = false := by
    rw [List.any_eq_false]
    intro c hc
    simpa using (hall c hc).2.1
  have hesc : pyEscape sqChar t.data = t.data :=
    pyEscape_plain t.data (fun c hc => ⟨(hall c hc).2.1, (hall c hc).2.2.2.1,
      (hall c hc).2.2.2.2.1, (hall c hc).2.2.2.2.2.1, (hall c hc).2.2.2.2.2.2⟩)
  show pyRepr t = sqw t
  unfold pyRepr
  rw [hq]
  simp only [Bool.false_and, if_false]
  unfold sqw sq
  apply String.ext
  simp [String.singleton, hesc]

/-- The flag rendering of a space-joined list of plain tokens is the
comma-joined list of the same tokens, each wrapped in single quotes. -/
lemma renderFlags_join (toks : List String) (hne : toks ≠ [])
    (hp : ∀ t ∈ toks, plainToken t = true) :
    renderFlags (String.mk (joinChar ' ' (toks.map String.data))) =
      pyJoin ", " (toks.map sqw) := by
  unfold renderFlags
  have hdata : (String.mk (joinChar ' ' (toks.map String.data))).data =
      joinChar ' ' (toks.map String.data) := rfl
  rw [hdata, pySplitSpace_joinChar (toks.map String.data)
    (by simpa using hne)
    (by
      intro u hu c hc
      obtain ⟨t, ht, rfl⟩ := List.mem_map.mp hu
      have := List.all_eq_true.mp (hp t ht) c hc
      simp only [decide_eq_true_eq] at this
      exact fun he => by simp [he] at this)]
  rw [List.map_map]
  apply congrArg
  apply List.map_congr_left
  intro t ht
  exact pyRepr_plain t (hp t ht)

lemma dictGet_clearedOverlay_cleared (ov : Overlay) :
    dictGet (clearedOverlay ov) "CC" = some none ∧
    dictGet (clearedOverlay ov) "CXX" = some none ∧
    dictGet (clearedOverlay ov) "CFLAGS" = some none ∧
    dictGet (clearedOverlay ov) "CXXFLAGS" = some none ∧
    dictGet (clearedOverlay ov) "CPPFLAGS" = some none ∧
    dictGet (clearedOverlay ov) "LDFLAGS" = some none := by
  unfold clearedOverlay
  refine ⟨?_, ?_, ?_, ?_, ?_, ?_⟩ <;>
    simp [dictGet_dictSet_same, dictGet_dictSet_other]

lemma dictGet_clearedOverlay_preserved (ov : Overlay) (k : String)
    (h : k ∉ ["CC", "CXX", "CFLAGS", "CXXFLAGS", "CPPFLAGS", "LDFLAGS"]) :
    dictGet (clearedOverlay ov) k = dictGet ov k := by
  simp only [List.mem_cons, List.not_mem_nil, or_false, not_or] at h
  obtain ⟨h1, h2, h3, h4, h5, h6⟩ := h
  unfold clearedOverlay
  rw [dictGet_dictSet_other _ _ _ _ (fun he => h6 he.symm),
      dictGet_dictSet_other _ _ _ _ (fun he => h5 he.symm),
      dictGet_dictSet_other _ _ _ _ (fun he => h4 he.symm),
      dictGet_dictSet_other _ _ _ _ (fun he => h3 he.symm),
      dictGet_dictSet_other _ _ _ _ (fun he => h2 he.symm),
      dictGet_dictSet_other _ _ _ _ (fun he => h1 he.symm)]

/-- Reduction of a native (non-cross) `configure` that got past directory
resolution. -/
lemma configure_native (m : Meson) (cf : ConanFile) (ctx : RunCtx)
    (deps : ConfDeps) (args : List String) (defs : List (String × String))
    (sd bd : Option String) (pcp : Option (List String))
    (cbf bf sf : Option String) (ngcf : Bool) (src_d bld_d : Option String)
    (h1 : cf.should_configure = true)
    (h2 : m.getDirs cf deps.absp sf bf sd bd cbf = .ok (src_d, bld_d))
    (h3 : deps.crossBuilding = false) :
    m.configure cf ctx deps args defs sd bd pcp cbf bf sf ngcf =
      ⟨configuredState m defs bld_d,
       [.mkdirE bld_d,
        .runCmd (configureCommandOf (configuredState m defs bld_d) src_d bld_d none args)
          (runLayers (configuredState m defs bld_d) ctx
            [[("PKG_CONFIG_PATH", some (pcPathsOf deps.absp cf.install_folder pcp))]])],
       if ctx.runner (configureCommandOf (configuredState m defs bld_d) src_d bld_d none args) then none
       else some (.executionError
         (configureCommandOf (configuredState m defs bld_d) src_d bld_d none args))⟩ := by
  unfold Meson.configure
  rw [h1, h2, h3]
  simp [Meson.runWithEnv]

/-- Reduction of a cross-compiling `configure` (not suppressed, no
two-profile build declaration, host architecture in the table) that got
past directory resolution. -/
lemma configure_cross (m : Meson) (cf : ConanFile) (ctx : RunCtx)
    (deps : ConfDeps) (args : List String) (defs : List (String × String))
    (sd bd : Option String) (pcp : Option (List String))
    (cbf bf sf : Option String) (src_d bld_d : Option String)
    (trip : String × String × String)
    (h1 : cf.should_configure = true)
    (h2 : m.getDirs cf deps.absp sf bf sd bd cbf = .ok (src_d, bld_d))
    (h3 : deps.crossBuilding = true)
    (h4 : cf.settings_build = none)
    (h5 : dictGet cpu_translate (pyStr (cf.settingsGet "arch")) = some trip) :
    m.configure cf ctx deps args defs sd bd pcp cbf bf sf false =
      ⟨configuredState m defs bld_d,
       [.mkdirE bld_d,
        .writeFile (joinPath bld_d "cross_file.txt")
          (crossHostContent (crossParamsOf m ((pyStr (cf.settingsGet "os")).toLower)
            trip deps.sysEnv (pcPathsOf deps.absp cf.install_folder pcp))),
        .runCmd (configureCommandOf (configuredState m defs bld_d) src_d bld_d
            (some ("--cross-file=" ++ joinPath bld_d "cross_file.txt")) args)
          (runLayers (configuredState m defs bld_d) ctx
            [clearedOverlay [("PKG_CONFIG_PATH", some (pcPathsOf deps.absp cf.install_folder pcp))]])],
       if ctx.runner (configureCommandOf (configuredState m defs bld_d) src_d bld_d
            (some ("--cross-file=" ++ joinPath bld_d "cross_file.txt")) args) then none
       else some (.executionError
         (configureCommandOf (configuredState m defs bld_d) src_d bld_d
            (some ("--cross-file=" ++ joinPath bld_d "cross_file.txt")) args))⟩ := by
  unfold Meson.configure
  rw [h1, h2, h3]
  unfold Meson.configureCrossCompile
  rw [h4, h5]
  simp [Meson.runWithEnv, dictGet, crossParamsOf, pyStr, pure, Except.pure,
    bind, Except.bind, configuredState]

/-- C6: every entry of the architecture translation table resolves to a
triple whose endianness is exactly "little" or "big"; the ARM64 variant
identifiers armv8 and armv8.3 resolve to cpu "aarch64"; and every 32-bit
ARM family identifier resolves to the single generic triple
("arm", "arm", "little"). -/
theorem spec_c6 :
    (∀ e ∈ cpu_translate, e.2.2.2 = "little" ∨ e.2.2.2 = "big") ∧
    (dictGet cpu_translate "armv8").map (fun t => t.2.1) = some "aarch64" ∧
    (dictGet cpu_translate "armv8.3").map (fun t => t.2.1) = some "aarch64" ∧
    (∀ a ∈ arm32Ids, dictGet cpu_translate a = some ("arm", "arm", "little")) := by
  refine ⟨?_, by decide, by decide, ?_⟩ <;> decide

theorem spec_c6_witness :
    (("wasm", ("wasm", "wasm", "little")) ∈ cpu_translate) ∧
    ((("wasm", ("wasm", "wasm", "little")) :
        String × String × String × String).2.2.2 = "little" ∨
     (("wasm", ("wasm", "wasm", "little")) :
        String × String × String × String).2.2.2 = "big") ∧
    ("armv7" ∈ arm32Ids) ∧
    dictGet cpu_translate "armv7" = some ("arm", "arm", "little") :=
  ⟨by decide, spec_c6.1 ("wasm", ("wasm", "wasm", "little")) (by decide),
   by decide, spec_c6.2.2.2 "armv7" (by decide)⟩

/-- C2: when the install phase flag is on, the conanfile has no package
output directory and the option plan has no prefix entry, `install` raises
the configuration error and records no external process invocation (only
the idempotent directory creation). -/
theorem spec_c2 (m : Meson) (cf : ConanFile) (ctx : RunCtx)
    (args : List String) (bd : Option String)
    (h1 : cf.should_install = true) (h2 : cf.package_folder = none)
    (h3 : dictGet m.options "prefix" = none) :
    (m.install cf ctx args bd).error = some (.conanException installMsg) ∧
    (m.install cf ctx args bd).effects = [.mkdirE none] ∧
    (m.install cf ctx args bd).effects.all (fun e => !e.isRun) = true := by
  unfold Meson.install
  rw [h1, h2, h3]
  simp [pyTruthy, Effect.isRun]

theorem spec_c2_witness :
    cfNoPkg.should_install = true ∧
    cfNoPkg.package_folder = none ∧
    dictGet mNoPrefix.options "prefix" = none ∧
    (mNoPrefix.install cfNoPkg ctxOk [] none).error =
      some (.conanException installMsg) ∧
    (mNoPrefix.install cfNoPkg ctxOk [] none).effects.all
      (fun e => !e.isRun) = true :=
  ⟨by decide, by decide, by decide,
   (spec_c2 mNoPrefix cfNoPkg ctxOk [] none (by decide) (by decide)
     (by decide)).1,
   (spec_c2 mNoPrefix cfNoPkg ctxOk [] none (by decide) (by decide)
     (by decide)).2.2⟩

/-- C8: for an adapter whose backend is not "ninja", `build` (when the
build phase flag is on) and `test` (when the test phase flag is on) raise
the unsupported-backend error and record no external process
invocation. -/
theorem spec_c8 (m : Meson) (cf : ConanFile) (ctx : RunCtx)
    (args : List String) (bd : Option String) (tg : Option (List String))
    (h : m.backend ≠ "ninja") :
    (cf.should_build = true →
      (m.build cf ctx args bd tg).error = some (.conanException backendMsg) ∧
      (m.build cf ctx args bd tg).effects = []) ∧
    (cf.should_test = true →
      (m.test cf ctx args bd tg).error = some (.conanException backendMsg) ∧
      (m.test cf ctx args bd tg).effects = []) := by
  constructor <;> intro hs <;>
    simp [Meson.build, Meson.test, Meson.runNinjaTargets, hs, h]

theorem spec_c8_witness :
    mVs.backend ≠ "ninja" ∧
    cfX.should_build = true ∧
    cfX.should_test = true ∧
    (mVs.build cfX ctxOk [] none none).error =
      some (.conanException backendMsg) ∧
    (mVs.build cfX ctxOk [] none none).effects = [] ∧
    (mVs.test cfX ctxOk [] none none).error =
      some (.conanException backendMsg) ∧
    (mVs.test cfX ctxOk [] none none).effects = [] :=
  ⟨by decide, by decide, by decide,
   ((spec_c8 mVs cfX ctxOk [] none none (by decide)).1 (by decide)).1,
   ((spec_c8 mVs cfX ctxOk [] none none (by decide)).1 (by decide)).2,
   ((spec_c8 mVs cfX ctxOk [] none none (by decide)).2 (by decide)).1,
   ((spec_c8 mVs cfX ctxOk [] none none (by decide)).2 (by decide)).2⟩

/-- C9: the vcvars toolchain-activation overlay is composed if and only if
the compiler is "Visual Studio", the backend is "ninja" and the host
platform is Windows; when composed it is layered (beneath the autotools
layer) around the governed command for its duration, and the ambient
environment after `_run` equals the one before regardless of what the
command returns or does to the environment (teardown on success and on
failure). -/
theorem spec_c9 :
    ∀ (m : Meson) (ctx : RunCtx) (e : EnvMap) (α : Type)
      (f : EnvMap → α) (g : EnvMap → EnvMap),
    (m.vcvarsNeeded ctx.platformSystem = true ↔
      (m.compiler = some "Visual Studio" ∧ m.backend = "ninja" ∧
        ctx.platformSystem = "Windows")) ∧
    m.runScoped ctx (fun env => (f env, g env)) e =
      (f (applyOverlay
            (if m.vcvarsNeeded ctx.platformSystem then
              applyOverlay e ctx.vcvarsDict
            else e)
            ctx.buildEnvVars), e) := by
  intro m ctx e α f g
  constructor
  · simp [Meson.vcvarsNeeded, Bool.and_eq_true, decide_eq_true_eq, and_assoc]
  · unfold Meson.runScoped withEnvOverlay
    by_cases h : m.vcvarsNeeded ctx.platformSystem = true <;> simp [h]

/-- The host part of the cross-file text contains the `needs_exe_wrapper`
line. -/
lemma crossHostContent_split (p : CrossParams) :
    ∃ a b, crossHostContent p =
      a ++ ((ind16 ++ "needs_exe_wrapper = " ++ sqw p.exe_wrapper) ++ b) := by
  unfold crossHostContent crossHostLines
  exact pyJoin_mem_split nl
    ["", ind16 ++ "[host_machine]", ind16 ++ "system = " ++ sqw p.os_host,
     ind16 ++ "cpu_family = " ++ sqw p.cpu_family,
     ind16 ++ "cpu = " ++ sqw p.cpu, ind16 ++ "endian = " ++ sqw p.endian,
     "", ind16 ++ "[properties]"]
    [ind16 ++ "cpp_args = [" ++ p.cxxflags ++ "]",
     ind16 ++ "c_args = [" ++ p.cflags ++ "]",
     ind16 ++ "pkg_config_libdir=" ++ sqw p.libdir,
     "", ind16 ++ "[binaries]", ind16 ++ "c = " ++ sqw p.cc,
     ind16 ++ "cpp = " ++ sqw p.cpp, ind16 ++ "ar = " ++ sqw p.ar,
     ind16 ++ "ld = " ++ sqw p.ld, ind16 ++ "strip = " ++ sqw p.strip,
     ind16 ++ "ranlib = " ++ sqw p.ranlib,
     ind16 ++ "pkgconfig = " ++ sqw "pkg-config", ind16]
    (ind16 ++ "needs_exe_wrapper = " ++ sqw p.exe_wrapper)

/-- C4: an adapter constructed with no exe-wrapper argument holds exactly
the string "false" as its exe-wrapper; the `needs_exe_wrapper` field of
the synthesized cross file carries, single-quoted and verbatim, whatever
exe-wrapper string the adapter holds. -/
theorem spec_c4 :
    (∀ (cf : ConanFile) (cppstd bk bt : Option String) (av : Bool)
       (m : Meson),
      Meson.init cf cppstd bk bt av none = .ok m → m.exe_wrapper = "false") ∧
    (∀ p : CrossParams,
      (crossHostLines p).get? 8 =
        some (ind16 ++ "needs_exe_wrapper = " ++ sqw p.exe_wrapper)) ∧
    (∀ (m : Meson) (os_host : String) (trip : String × String × String)
       (sysEnv : String → Option String) (libdir : String),
      ∃ a b, crossHostContent (crossParamsOf m os_host trip sysEnv libdir) =
        a ++ ((ind16 ++ "needs_exe_wrapper = " ++ sqw m.exe_wrapper) ++ b)) := by
  refine ⟨?_, fun p => rfl, ?_⟩
  · intro cf cppstd bk bt av m h
    unfold Meson.init at h
    simp only [bind, Except.bind, pure, Except.pure] at h
    split at h
    · split at h
      · cases h
        rfl
      · cases h
    · cases h
      rfl
  · intro m os_host trip sysEnv libdir
    exact crossHostContent_split (crossParamsOf m os_host trip sysEnv libdir)

theorem spec_c4_witness :
    Meson.init cfX none none none false none = .ok mX ∧
    mX.exe_wrapper = "false" :=
  ⟨rfl, spec_c4.1 cfX none none none false mX rfl⟩

/-- C5: with `CFLAGS` (resp. `CXXFLAGS`) unset or empty, the synthesized
cross file contains exactly the line `c_args = ['']` (resp.
`cpp_args = ['']`) — a single empty-string token, not an empty list; and
in general a flags value made of space-separated plain tokens renders as
the same tokens, individually single-quoted and comma-joined. -/
theorem spec_c5 (senv : String → Option String) (toks : List String)
    (h1 : senv "CFLAGS" = none ∨ senv "CFLAGS" = some "")
    (h2 : senv "CXXFLAGS" = none ∨ senv "CXXFLAGS" = some "")
    (h3 : toks ≠ []) (h4 : ∀ t ∈ toks, plainToken t = true) :
    (∀ (m : Meson) (os_host : String) (trip : String × String × String)
       (libdir : String),
      (crossHostLines (crossParamsOf m os_host trip senv libdir)).get? 10 =
        some (ind16 ++ "c_args = [" ++ sqw "" ++ "]") ∧
      (crossHostLines (crossParamsOf m os_host trip senv libdir)).get? 9 =
        some (ind16 ++ "cpp_args = [" ++ sqw "" ++ "]")) ∧
    renderFlags (String.mk (joinChar ' ' (toks.map String.data))) =
      pyJoin ", " (toks.map sqw) := by
  constructor
  · intro m os_host trip libdir
    have hc : (senv "CFLAGS").getD "" = "" := by
      rcases h1 with h | h <;> simp [h]
    have hx : (senv "CXXFLAGS").getD "" = "" := by
      rcases h2 with h | h <;> simp [h]
    constructor
    · have hstep : (crossHostLines (crossParamsOf m os_host trip senv libdir)).get? 10 =
          some (ind16 ++ "c_args = [" ++
            renderFlags ((senv "CFLAGS").getD "") ++ "]") := rfl
      rw [hstep, hc]
      decide
    · have hstep : (crossHostLines (crossParamsOf m os_host trip senv libdir)).get? 9 =
          some (ind16 ++ "cpp_args = [" ++
            renderFlags ((senv "CXXFLAGS").getD "") ++ "]") := rfl
      rw [hstep, hx]
      decide
  · exact renderFlags_join toks h3 h4

theorem spec_c5_witness :
    (crossHostLines (crossParamsOf mX "linux" ("x86_64", "x86_64", "little")
        envEmpty "/inst")).get? 10 =
      some (ind16 ++ "c_args = [" ++ sqw "" ++ "]") ∧
    renderFlags (String.mk (joinChar ' ' (["-O2", "-g"].map String.data))) =
      pyJoin ", " (["-O2", "-g"].map sqw) :=
  ⟨((spec_c5 envEmpty ["-O2", "-g"] (Or.inl rfl) (Or.inl rfl) (by decide)
      (by decide)).1 mX "linux" ("x86_64", "x86_64", "little") "/inst").1,
   (spec_c5 envEmpty ["-O2", "-g"] (Or.inl rfl) (Or.inl rfl) (by decide)
      (by decide)).2⟩

/-- C1 counterexample: in a concrete cross-compiling configure the overlay
handed to the external invocation leaves LD, AR, STRIP and RANLIB without
any binding, so the claim that all six toolchain variables (including LD,
AR, STRIP, RANLIB) are mapped to unset is false. -/
theorem spec_c1_counterexample :
    firstRunOuterOverlay c1out = some c1overlay ∧
    ¬(dictGet c1overlay "LD" = some none ∧
      dictGet c1overlay "AR" = some none ∧
      dictGet c1overlay "STRIP" = some none ∧
      dictGet c1overlay "RANLIB" = some none) := by
  constructor
  · rfl
  · decide

/-- C1 (amended): after cross-file synthesis the overlay passed to the
external invocation maps CC and CXX plus CFLAGS, CXXFLAGS, CPPFLAGS and
LDFLAGS to unset, for every initial overlay content; the remaining
toolchain variables LD, AR, STRIP and RANLIB keep whatever binding (none,
in configure) the overlay already had. -/
theorem spec_c1 :
    (∀ ov : Overlay,
      dictGet (clearedOverlay ov) "CC" = some none ∧
      dictGet (clearedOverlay ov) "CXX" = some none ∧
      dictGet (clearedOverlay ov) "CFLAGS" = some none ∧
      dictGet (clearedOverlay ov) "CXXFLAGS" = some none ∧
      dictGet (clearedOverlay ov) "CPPFLAGS" = some none ∧
      dictGet (clearedOverlay ov) "LDFLAGS" = some none ∧
      dictGet (clearedOverlay ov) "LD" = dictGet ov "LD" ∧
      dictGet (clearedOverlay ov) "AR" = dictGet ov "AR" ∧
      dictGet (clearedOverlay ov) "STRIP" = dictGet ov "STRIP" ∧
      dictGet (clearedOverlay ov) "RANLIB" = dictGet ov "RANLIB") ∧
    (∀ (m : Meson) (cf : ConanFile) (ctx : RunCtx) (deps : ConfDeps)
       (args : List String) (defs : List (String × String))
       (sd bd : Option String) (pcp : Option (List String))
       (cbf bf sf src_d bld_d : Option String)
       (trip : String × String × String),
      cf.should_configure = true →
      m.getDirs cf deps.absp sf bf sd bd cbf = .ok (src_d, bld_d) →
      deps.crossBuilding = true →
      cf.settings_build = none →
      dictGet cpu_translate (pyStr (cf.settingsGet "arch")) = some trip →
      firstRunOuterOverlay
          (m.configure cf ctx deps args defs sd bd pcp cbf bf sf false) =
        some (clearedOverlay
          [("PKG_CONFIG_PATH",
            some (pcPathsOf deps.absp cf.install_folder pcp))])) := by
  constructor
  · intro ov
    obtain ⟨a, b, c, d, e, f⟩ := dictGet_clearedOverlay_cleared ov
    refine ⟨a, b, c, d, e, f, ?_, ?_, ?_, ?_⟩ <;>
      exact dictGet_clearedOverlay_preserved ov _ (by decide)
  · intro m cf ctx deps args defs sd bd pcp cbf bf sf src_d bld_d trip
      h1 h2 h3 h4 h5
    rw [configure_cross m cf ctx deps args defs sd bd pcp cbf bf sf src_d
      bld_d trip h1 h2 h3 h4 h5]
    simp [firstRunOuterOverlay, runLayers]

theorem spec_c1_witness :
    dictGet (clearedOverlay c1overlay) "CC" = some none ∧
    firstRunOuterOverlay
        (mX.configure cfX ctxOk depsCross [] [] none none none none none
          none false) =
      some (clearedOverlay
        [("PKG_CONFIG_PATH",
          some (pcPathsOf depsCross.absp cfX.install_folder none))]) :=
  ⟨(spec_c1.1 c1overlay).1,
   spec_c1.2 mX cfX ctxOk depsCross [] [] none none none none none none
     (some "/src") (some "/bld") ("x86_64", "x86_64", "little") rfl rfl rfl
     rfl rfl⟩

/-- C3 counterexample: a concrete configure whose external command fails
still leaves the adapter with a changed stored build directory and a
changed option plan, so the claim that the observable state is unchanged
on failure is false. -/
theorem spec_c3_counterexample :
    c3out.error.isSome = true ∧
    c3out.state.build_dir ≠ mX.build_dir ∧
    c3out.state.options ≠ mX.options := by
  refine ⟨?_, ?_, ?_⟩ <;> decide

/-- C3 (amended): when configure's external command execution fails, the
call raises, but the adapter has already merged the overrides into its
option plan and stored the resolved build directory: the mutations precede
execution and are not rolled back. -/
theorem spec_c3 (m : Meson) (cf : ConanFile) (ctx : RunCtx) (deps : ConfDeps)
    (args : List String) (defs : List (String × String))
    (sd bd : Option String) (pcp : Option (List String))
    (cbf bf sf : Option String) (ngcf : Bool) (src_d bld_d : Option String)
    (h1 : cf.should_configure = true)
    (h2 : m.getDirs cf deps.absp sf bf sd bd cbf = .ok (src_d, bld_d))
    (h3 : deps.crossBuilding = false)
    (h4 : ∀ c, ctx.runner c = false) :
    (m.configure cf ctx deps args defs sd bd pcp cbf bf sf ngcf).error.isSome
        = true ∧
    (m.configure cf ctx deps args defs sd bd pcp cbf bf sf ngcf).state =
      configuredState m defs bld_d := by
  rw [configure_native m cf ctx deps args defs sd bd pcp cbf bf sf ngcf
    src_d bld_d h1 h2 h3]
  exact ⟨by simp [h4], rfl⟩

theorem spec_c3_witness :
    c3out.error.isSome = true ∧
    c3out.state = configuredState mX [("custom_opt", "1")] (some "bd") :=
  spec_c3 mX cfX ctxFail depsNative [] [("custom_opt", "1")] none
    (some "bd") none none none none false (some "/src") (some "bd") rfl rfl
    rfl (fun _ => rfl)

lemma buildtype_arg_ne_empty (x : String) : "--buildtype=" ++ x ≠ "" := by
  intro h
  have hl := congrArg String.length h
  rw [String.length_append] at hl
  have h12 : ("--buildtype=" : String).length = 12 := rfl
  have h0 : ("" : String).length = 0 := rfl
  rw [h12, h0] at hl
  omega

/-- C7: the build-type setting maps to the external tool's vocabulary
exactly by RelWithDebInfo→debugoptimized, MinSizeRel→release, Debug→debug,
Release→release, anything else (including unset) to the empty string, and
configure's command line ends with `--buildtype=` followed by the mapped
value. -/
theorem spec_c7 :
    btMapped (some "RelWithDebInfo") = "debugoptimized" ∧
    btMapped (some "MinSizeRel") = "release" ∧
    btMapped (some "Debug") = "debug" ∧
    btMapped (some "Release") = "release" ∧
    (∀ bt : Option String,
      pyStr bt ∉ ["RelWithDebInfo", "MinSizeRel", "Debug", "Release"] →
      btMapped bt = "") ∧
    (∀ (m : Meson) (cf : ConanFile) (ctx : RunCtx) (deps : ConfDeps)
       (args : List String) (defs : List (String × String))
       (sd bd : Option String) (pcp : Option (List String))
       (cbf bf sf : Option String) (ngcf : Bool)
       (src_d bld_d : Option String),
      cf.should_configure = true →
      m.getDirs cf deps.absp sf bf sd bd cbf = .ok (src_d, bld_d) →
      deps.crossBuilding = false →
      ∃ pre layers,
        (m.configure cf ctx deps args defs sd bd pcp cbf bf sf ngcf).effects =
          [.mkdirE bld_d,
           .runCmd (pre ++ ("--buildtype=" ++ btMapped m.build_type))
             layers]) := by
  refine ⟨rfl, rfl, rfl, rfl, ?_, ?_⟩
  · intro bt h
    simp only [List.mem_cons, List.not_mem_nil, or_false, not_or] at h
    obtain ⟨n1, n2, n3, n4⟩ := h
    simp only [btMapped, dictGet]
    rw [if_neg (fun he => n1 he.symm), if_neg (fun he => n2 he.symm),
        if_neg (fun he => n3 he.symm), if_neg (fun he => n4 he.symm)]
    rfl
  · intro m cf ctx deps args defs sd bd pcp cbf bf sf ngcf src_d bld_d
      h1 h2 h3
    rw [configure_native m cf ctx deps args defs sd bd pcp cbf bf sf ngcf
      src_d bld_d h1 h2 h3]
    obtain ⟨p, hp⟩ := joinArguments_ends
      [none, some ("--backend=" ++ (configuredState m defs bld_d).backend),
       some (configuredState m defs bld_d).flags,
       some (argsToString (some args))]
      ("--buildtype=" ++ btMapped m.build_type)
      (buildtype_arg_ne_empty _)
    have hp2 : joinArguments
        [none, some ("--backend=" ++ (configuredState m defs bld_d).backend),
         some (configuredState m defs bld_d).flags,
         some (argsToString (some args)),
         some ("--buildtype=" ++
           btMapped (configuredState m defs bld_d).build_type)] =
        p ++ ("--buildtype=" ++ btMapped m.build_type) := hp
    refine ⟨"meson " ++ "\"" ++ pyStr src_d ++ "\" \"" ++ pyStr bld_d ++
      "\" " ++ p,
      runLayers (configuredState m defs bld_d) ctx
        [[("PKG_CONFIG_PATH",
           some (pcPathsOf deps.absp cf.install_folder pcp))]], ?_⟩
    simp only [configureCommandOf, hp2, String.append_assoc]

theorem spec_c7_witness :
    btMapped (some "Custom") = "" ∧
    (∃ pre layers,
      (mX.configure cfX ctxOk depsNative [] [] none none none none none
        none false).effects =
        [.mkdirE (some "/bld"),
         .runCmd (pre ++ ("--buildtype=" ++ btMapped mX.build_type))
           layers]) :=
  ⟨spec_c7.2.2.2.2.1 (some "Custom") (by decide),
   spec_c7.2.2.2.2.2 mX cfX ctxOk depsNative [] [] none none none none
     none none false (some "/src") (some "/bld") rfl rfl rfl⟩

/-- C10: the pkg-config search path configure puts under `PKG_CONFIG_PATH`
in the invocation overlay is exactly the conanfile's install folder when
`pkg_config_paths` is absent or empty, and otherwise the given paths,
resolved against the install folder, joined with the OS path separator;
when a cross file is synthesized, the same value is written as its
`pkg_config_libdir` field. -/
theorem spec_c10 (m : Meson) (cf : ConanFile) (ctx : RunCtx)
    (deps : ConfDeps) (args : List String) (defs : List (String × String))
    (sd bd : Option String) (pcp : Option (List String))
    (cbf bf sf src_d bld_d : Option String)
    (trip : String × String × String)
    (h1 : cf.should_configure = true)
    (h2 : m.getDirs cf deps.absp sf bf sd bd cbf = .ok (src_d, bld_d)) :
    (pcPathsOf deps.absp cf.install_folder none = cf.install_folder ∧
     pcPathsOf deps.absp cf.install_folder (some []) = cf.install_folder ∧
     (∀ ps : List String, ps ≠ [] →
       pcPathsOf deps.absp cf.install_folder (some ps) =
         pyJoin os_pathsep
           (ps.map (fun f => getAbsPathS deps.absp f cf.install_folder)))) ∧
    (deps.crossBuilding = false → ∀ ngcf,
      pcEntry (m.configure cf ctx deps args defs sd bd pcp cbf bf sf ngcf) =
        some (some (some (pcPathsOf deps.absp cf.install_folder pcp)))) ∧
    (deps.crossBuilding = true → cf.settings_build = none →
     dictGet cpu_translate (pyStr (cf.settingsGet "arch")) = some trip →
      pcEntry (m.configure cf ctx deps args defs sd bd pcp cbf bf sf false) =
        some (some (some (pcPathsOf deps.absp cf.install_folder pcp))) ∧
      (crossHostLines (crossParamsOf m ((pyStr (cf.settingsGet "os")).toLower)
          trip deps.sysEnv (pcPathsOf deps.absp cf.install_folder pcp))).get? 11 =
        some (ind16 ++ "pkg_config_libdir=" ++
          sqw (pcPathsOf deps.absp cf.install_folder pcp)) ∧
      (m.configure cf ctx deps args defs sd bd pcp cbf bf sf false).effects.any
        (fun e => e = .writeFile (joinPath bld_d "cross_file.txt")
          (crossHostContent (crossParamsOf m
            ((pyStr (cf.settingsGet "os")).toLower) trip deps.sysEnv
            (pcPathsOf deps.absp cf.install_folder pcp)))) = true) := by
  refine ⟨⟨rfl, rfl, ?_⟩, ?_, ?_⟩
  · intro ps hps
    simp [pcPathsOf, hps]
  · intro h3 ngcf
    rw [configure_native m cf ctx deps args defs sd bd pcp cbf bf sf ngcf
      src_d bld_d h1 h2 h3]
    simp [pcEntry, firstRunOuterOverlay, runLayers, dictGet]
  · intro h3 h4 h5
    rw [configure_cross m cf ctx deps args defs sd bd pcp cbf bf sf src_d
      bld_d trip h1 h2 h3 h4 h5]
    refine ⟨?_, rfl, ?_⟩
    · simp only [pcEntry, firstRunOuterOverlay, runLayers]
      simp [dictGet_clearedOverlay_preserved _ "PKG_CONFIG_PATH" (by decide),
        dictGet]
    · simp

theorem spec_c10_witness :
    pcPathsOf depsNative.absp cfX.install_folder none = cfX.install_folder ∧
    pcEntry (mX.configure cfX ctxOk depsNative [] [] none none none none
        none none false) =
      some (some (some (pcPathsOf depsNative.absp cfX.install_folder none))) :=
  ⟨(spec_c10 mX cfX ctxOk depsNative [] [] none none none none none none
      (some "/src") (some "/bld") ("x86_64", "x86_64", "little") rfl
      rfl).1.1,
   (spec_c10 mX cfX ctxOk depsNative [] [] none none none none none none
      (some "/src") (some "/bld") ("x86_64", "x86_64", "little") rfl
      rfl).2.1 rfl false⟩

end MesonSpec
